import Mathlib

/-!
Verification of the `xaudio-cli` music player against its natural-language
specification.  The definitions below are a shallow embedding of the Rust
sources `src/utils.rs` and `src/main.rs`:

* pure functions (`get_total_pages`, `paginate`, `truncate`, playlist
  persistence) become Lean functions;
* `create_index_queue`, whose Rust body is a `while` loop that may not
  terminate, is embedded with an explicit fuel parameter and an explicit
  stream of random draws (`stream k % len` models `rng.gen_range(0..len)`;
  every in-range draw sequence is representable); a `none` result means the
  loop has not finished within `fuel` iterations;
* the `MusicApp` state and its `update`/`input` methods become a record and
  a transition function `updateApp`.  A `none` result of `updateApp` models
  a Rust panic (out-of-bounds `Vec` indexing) or a non-terminating call to
  `create_index_queue`; `updateApp` also returns the list of `Command`
  values the transition hands to `Sender::try_send`, in order;
* `usize` subtraction `n - 1` appears in the sources only as release-mode
  wrapping arithmetic on values below `2^64`; it is embedded as
  `usizeSub1`, which agrees with `(n + 2^64 - 1) % 2^64` on that range.
  All increments in the sources are guarded by comparisons against such
  bounds, hence never wrap, and are embedded as plain `Nat` successor.

File I/O, the terminal, the mpv socket and the tokio channels are out of
scope; playlist persistence is modelled as the pure content transformation
performed by `save_playlist` / `read_playlist`.
-/

/-- Mirror of `AppMode` in `src/main.rs`. -/
inductive AppMode
  | Playing
  | SearchInput
  | SearchBrowse
deriving DecidableEq, Repr

/-- Mirror of `SongEntry` in `src/youtube.rs` (an id and a title). -/
structure SongEntry where
  id : String
  title : String
deriving DecidableEq, Repr

/-- Mirror of `Command` in `src/main.rs`. -/
inductive Command
  | Search (keyword : String)
  | Play (songId : String)
  | SavePlaylist (playlist : List SongEntry)
deriving DecidableEq, Repr

/-- Mirror of `Message` in `src/main.rs`.  `Instant` and `Duration` are
modelled as natural numbers (time is never computed with, only stored). -/
inductive Message
  | GoToSearch
  | GoToSearchBrowse
  | GoToPlaylist
  | SearchSong
  | AddSelectedToPlaylist
  | RemoveSong
  | NextItem
  | PrevItem
  | NextPage
  | PrevPage
  | PlaySelected
  | NextSong
  | PrevSong
  | ToggleShuffle
  | InputText (ch : Char)
  | DeleteText
  | DisplaySearchResult (result : List SongEntry)
  | SongStarted (t : Nat)
  | SongStopped (reason : String)
  | SongDuration (d : Nat)
  | None
deriving DecidableEq, Repr

/-- Mirror of `pancurses::Input` restricted to what `MusicApp::input`
distinguishes: a character key, or anything else. -/
inductive AppInput
  | Character (ch : Char)
  | KeyOther
deriving DecidableEq, Repr

/-- Mirror of the `MusicApp` struct in `src/main.rs` (the `subscriber`
channel handle is replaced by returning the sent commands from the
transition function, and the two `Window` handles are dropped). -/
structure AppState where
  mode : AppMode
  current_playlist : List SongEntry
  search_results : List SongEntry
  current_page : Nat
  page_display_size : Nat
  selected_index : Nat
  keyword : String
  loading : Bool
  song_duration : Nat
  playing : Bool
  playing_index : Nat
  last_started : Nat
  play_queue : List Nat
  queue_index : Nat
  is_shuffle : Bool
deriving DecidableEq, Repr

/-- Number of values of Rust's `usize` on the 64-bit targets the program
is built for. -/
def USIZE : Nat := 2 ^ 64

/-- Release-mode `usize` subtraction `n - 1`: wraps to `2^64 - 1` at zero.
For `n < 2^64` this equals `(n + 2^64 - 1) % 2^64`. -/
def usizeSub1 (n : Nat) : Nat := if n = 0 then USIZE - 1 else n - 1

/-- Mirror of `get_total_pages` in `src/utils.rs`:
`len / page_size + if len % page_size == 0 { 0 } else { 1 }`.
(The Rust division panics when `page_size = 0`; callers in `updateApp`
guard that case explicitly.) -/
def get_total_pages (len page_size : Nat) : Nat :=
  len / page_size + if len % page_size = 0 then 0 else 1

/-- Mirror of `paginate` in `src/utils.rs`: the slice of `list` shown on
`page`, or `None` when the page start is past the end of the list. -/
def paginate {α : Type} (list : List α) (page page_size : Nat) : Option (List α) :=
  let start := page * page_size
  if start < list.length then
    some (if list.length - start < page_size
          then list.drop start
          else (list.drop start).take page_size)
  else none

/-- Loop body of `create_index_queue` in `src/utils.rs`, with explicit fuel
(iteration budget), iteration counter `k` and accumulator `ret`.  One Rust
iteration: pick `val` (`rng.gen_range(0..len)` when shuffling, modelled as
`stream k % len`; otherwise `*ret.last().unwrap_or(&0)`), and push it if it
is not already in `ret`.  Returns `none` when `fuel` runs out before
`ret.len() == len`. -/
def ciqLoop (len : Nat) (shuffle : Bool) (stream : Nat → Nat) :
    Nat → Nat → List Nat → Option (List Nat)
  | 0, _, ret => if ret.length < len then none else some ret
  | fuel + 1, k, ret =>
    if ret.length < len then
      let val := if shuffle then stream k % len else ret.getLast?.getD 0
      ciqLoop len shuffle stream fuel (k + 1) (if val ∈ ret then ret else ret ++ [val])
    else some ret

/-- Mirror of `create_index_queue(len, shuffle)` in `src/utils.rs`, run with
the given random stream and iteration budget.  `none` means the Rust loop
has not terminated within `fuel` iterations. -/
def create_index_queue (len : Nat) (shuffle : Bool) (stream : Nat → Nat) (fuel : Nat) :
    Option (List Nat) :=
  ciqLoop len shuffle stream fuel 0 []

/-- Mirror of `MusicApp::switch_mode`: set the mode and reset the selection
and page cursors (the `win.clear()` call is display-only). -/
def switchMode (s : AppState) (m : AppMode) : AppState :=
  { s with mode := m, selected_index := 0, current_page := 0 }

/-- The list `MusicApp` is currently displaying and paging over: the
playlist in `Playing` mode, the search results otherwise (the expression
`if self.mode == AppMode::Playing { ... }` from `Message::NextPage` and
`render`). -/
def displayed_list (s : AppState) : List SongEntry :=
  if s.mode = AppMode.Playing then s.current_playlist else s.search_results

/-- Number of items on the page currently shown, per `paginate` (0 when
`paginate` returns `None`). -/
def items_on_current_page (s : AppState) : Nat :=
  ((paginate (displayed_list s) s.current_page s.page_display_size).getD []).length

/-- Mirror of `MusicApp::play_selected_song`: index the playlist at
`selected_index + current_page * page_display_size` (a panic — `none` —
when out of bounds), send `Play` for that entry, and record
`playing_index = selected_index`. -/
def play_selected_song (s : AppState) : Option (AppState × List Command) :=
  let idx := s.selected_index + s.current_page * s.page_display_size
  match s.current_playlist[idx]? with
  | some song => some ({ s with playing_index := s.selected_index }, [Command.Play song.id])
  | none => none

/-- Mirror of `MusicApp::play_next_song`: advance the queue cursor if it is
below `play_queue.len() - 1` (release-mode wrapping subtraction), otherwise
rebuild the queue via `create_index_queue` and reset the cursor; then index
the queue (a panic — `none` — when out of bounds) and play the selected
song. -/
def play_next_song (stream : Nat → Nat) (fuel : Nat) (s : AppState) :
    Option (AppState × List Command) :=
  let step : Option AppState :=
    if s.queue_index < usizeSub1 s.play_queue.length then
      some { s with queue_index := s.queue_index + 1 }
    else
      match create_index_queue s.current_playlist.length s.is_shuffle stream fuel with
      | some q => some { s with play_queue := q, queue_index := 0 }
      | none => none
  match step with
  | none => none
  | some s1 =>
    match s1.play_queue[s1.queue_index]? with
    | some sel => play_selected_song { s1 with selected_index := sel }
    | none => none

/-- Mirror of `MusicApp::play_prev_song`: decrement the queue cursor when
positive, then index the queue and play the selected song. -/
def play_prev_song (s : AppState) : Option (AppState × List Command) :=
  let s1 := if 0 < s.queue_index then { s with queue_index := s.queue_index - 1 } else s
  match s1.play_queue[s1.queue_index]? with
  | some sel => play_selected_song { s1 with selected_index := sel }
  | none => none

/-- Mirror of `MusicApp::update` in `src/main.rs`.  Returns the new state
and the commands passed to `try_send`, in order; `none` models a panic
(out-of-bounds indexing, `Vec::remove` past the end, division by zero in
`get_total_pages`) or a diverging `create_index_queue` call. -/
def updateApp (stream : Nat → Nat) (fuel : Nat) (s : AppState) (msg : Message) :
    Option (AppState × List Command) :=
  match msg with
  | Message.DisplaySearchResult result =>
    some ({ switchMode { s with search_results := result } AppMode.SearchBrowse with
            loading := false }, [])
  | Message.GoToSearch =>
    some ({ switchMode s AppMode.SearchInput with keyword := "" }, [])
  | Message.GoToSearchBrowse => some (switchMode s AppMode.SearchBrowse, [])
  | Message.GoToPlaylist => some (switchMode s AppMode.Playing, [])
  | Message.SearchSong =>
    if 0 < s.keyword.trim.length then
      some ({ s with loading := true }, [Command.Search s.keyword])
    else some (s, [])
  | Message.AddSelectedToPlaylist =>
    let idx := s.selected_index + s.current_page * s.page_display_size
    match s.search_results[idx]? with
    | none => none
    | some song =>
      let pl := s.current_playlist ++ [song]
      match create_index_queue pl.length s.is_shuffle stream fuel with
      | none => none
      | some q =>
        some ({ s with current_playlist := pl, play_queue := q }, [Command.SavePlaylist pl])
  | Message.RemoveSong =>
    if s.selected_index < s.current_playlist.length then
      let pl := s.current_playlist.eraseIdx s.selected_index
      match create_index_queue pl.length s.is_shuffle stream fuel with
      | none => none
      | some q =>
        some ({ s with current_playlist := pl, play_queue := q }, [Command.SavePlaylist pl])
    else none
  | Message.NextPage =>
    if s.page_display_size = 0 then none
    else
      let listLen := (displayed_list s).length
      let total := get_total_pages listLen s.page_display_size
      let page := if s.current_page < usizeSub1 total then s.current_page + 1
                  else s.current_page
      some ({ s with current_page := page, selected_index := 0 }, [])
  | Message.PrevPage =>
    let page := if 0 < s.current_page then s.current_page - 1 else s.current_page
    some ({ s with current_page := page, selected_index := 0 }, [])
  | Message.NextItem =>
    let sel := if s.selected_index < usizeSub1 s.page_display_size then s.selected_index + 1
               else s.selected_index
    some ({ s with selected_index := sel }, [])
  | Message.PrevItem =>
    let sel := if 0 < s.selected_index then s.selected_index - 1 else s.selected_index
    some ({ s with selected_index := sel }, [])
  | Message.InputText ch => some ({ s with keyword := s.keyword.push ch }, [])
  | Message.DeleteText => some ({ s with keyword := s.keyword.dropRight 1 }, [])
  | Message.PlaySelected => play_selected_song s
  | Message.SongStarted t => some ({ s with playing := true, last_started := t }, [])
  | Message.SongStopped reason =>
    if reason = "eof" then play_next_song stream fuel { s with playing := false }
    else some ({ s with playing := false }, [])
  | Message.SongDuration d => some ({ s with song_duration := d }, [])
  | Message.NextSong => play_next_song stream fuel s
  | Message.PrevSong => play_prev_song s
  | Message.ToggleShuffle =>
    match create_index_queue s.current_playlist.length (!s.is_shuffle) stream fuel with
    | none => none
    | some q => some ({ s with is_shuffle := !s.is_shuffle, play_queue := q }, [])
  | Message.None => some (s, [])

/-- Mirror of the key constants in `src/utils.rs`. -/
def ENTER_KEY : Char := Char.ofNat 10

/-- Escape key constant from `src/utils.rs`. -/
def ESCAPE_KEY : Char := Char.ofNat 27

/-- Backspace key constant from `src/utils.rs`. -/
def BACKSPACE_KEY : Char := Char.ofNat 127

/-- Tab key constant from `src/utils.rs`. -/
def TAB_KEY : Char := Char.ofNat 9

/-- Mirror of `MusicApp::input` in `src/main.rs`: translate a key press to
a `Message` according to the current mode (match arms in source order). -/
def appInput (mode : AppMode) (i : AppInput) : Message :=
  match mode with
  | AppMode.Playing =>
    match i with
    | AppInput.Character c =>
      if c = ENTER_KEY then Message.PlaySelected
      else if c = '/' then Message.GoToSearch
      else if c = TAB_KEY then Message.GoToSearchBrowse
      else if c = 'j' then Message.NextItem
      else if c = 'k' then Message.PrevItem
      else if c = 'x' then Message.RemoveSong
      else if c = '>' then Message.NextPage
      else if c = '<' then Message.PrevPage
      else if c = 'n' then Message.NextSong
      else if c = 'p' then Message.PrevSong
      else if c = 's' then Message.ToggleShuffle
      else Message.None
    | AppInput.KeyOther => Message.None
  | AppMode.SearchInput =>
    match i with
    | AppInput.Character c =>
      if c = ESCAPE_KEY then Message.GoToPlaylist
      else if c = BACKSPACE_KEY then Message.DeleteText
      else if c = ENTER_KEY then Message.SearchSong
      else Message.InputText c
    | AppInput.KeyOther => Message.None
  | AppMode.SearchBrowse =>
    match i with
    | AppInput.Character c =>
      if c = ESCAPE_KEY ∨ c = 'q' then Message.GoToPlaylist
      else if c = '/' then Message.GoToSearch
      else if c = '>' then Message.NextPage
      else if c = '<' then Message.PrevPage
      else if c = 'j' then Message.NextItem
      else if c = 'k' then Message.PrevItem
      else if c = ENTER_KEY then Message.AddSelectedToPlaylist
      else Message.None
    | AppInput.KeyOther => Message.None

/-- First song of the two-entry example playlist used by the spec. -/
def songA : SongEntry := { id := "a", title := "Song A" }

/-- Second song of the two-entry example playlist used by the spec. -/
def songB : SongEntry := { id := "b", title := "Song B" }

/-- The state `MusicApp::new(vec![], tx)` reaches after `init` on a
terminal 11 rows high (`page_display_size = 5`): empty playlist, empty
queue, `Playing` mode, everything at zero. -/
def stateEmpty : AppState :=
  { mode := AppMode.Playing
    current_playlist := []
    search_results := []
    current_page := 0
    page_display_size := 5
    selected_index := 0
    keyword := ""
    loading := false
    song_duration := 0
    playing := false
    playing_index := 0
    last_started := 0
    play_queue := []
    queue_index := 0
    is_shuffle := false }

/-- Startup state for a one-song playlist: `create_index_queue(1, false)`
terminates and yields `[0]`. -/
def stateOne : AppState :=
  { stateEmpty with current_playlist := [songA], play_queue := [0] }

/-- The spec's two-song scenario state (`[Song A, Song B]`, shuffle off,
sequential queue `[0, 1]`) with the queue cursor on the last position. -/
def stateAB : AppState :=
  { stateEmpty with
    current_playlist := [songA, songB]
    play_queue := [0, 1]
    queue_index := 1
    selected_index := 1 }

/-- A state on page 1 with page size 1 over a two-song playlist, used to
exhibit the `playing_index` / absolute-index mismatch. -/
def statePaged : AppState :=
  { stateEmpty with
    current_playlist := [songA, songB]
    play_queue := [0, 1]
    current_page := 1
    page_display_size := 1 }

/-- A constant random stream (used where the stream is irrelevant). -/
def streamZero : Nat → Nat := fun _ => 0

/-- Whether `sep` occurs at the start of `s` (helper for `splitFirst`). -/
def leadsWith : List Char → List Char → Bool
  | [], _ => true
  | _ :: _, [] => false
  | p :: ps, c :: cs => p == c && leadsWith ps cs

/-- Mirror of Rust `str::split_once(sep)`: split at the first occurrence of
`sep`, or `none` when `sep` does not occur.  Characters are scanned left to
right; on a match the separator itself is dropped. -/
def splitFirst (sep : List Char) : List Char → Option (List Char × List Char)
  | [] => none
  | c :: cs =>
    if leadsWith sep (c :: cs) then some ([], (c :: cs).drop sep.length)
    else
      match splitFirst sep cs with
      | some (pre, post) => some (c :: pre, post)
      | none => none

/-- Mirror of Rust `str::trim` for the characters that occur in playlist
lines (ASCII whitespace, in particular the trailing newline of a read
line). -/
def trimChars (s : List Char) : List Char :=
  ((s.dropWhile Char.isWhitespace).reverse.dropWhile Char.isWhitespace).reverse

/-- The lines of a file's content, as produced by the `read_line` loop in
`read_playlist` (`src/utils.rs`), except that the trailing `'\n'` of each
line is dropped here; `read_playlist` only ever applies `trim` to the text
after the first `" - "`, so keeping or dropping that newline is
indistinguishable.  An empty content yields one empty line, which is
skipped by the `" - "` filter, exactly as the Rust loop breaks on a 0-byte
read. -/
def splitLines : List Char → List (List Char)
  | [] => [[]]
  | c :: cs =>
    if c = '\n' then [] :: splitLines cs
    else
      match splitLines cs with
      | [] => [[c]]
      | l :: ls => (c :: l) :: ls

/-- Mirror of `save_playlist` in `src/utils.rs` as a pure content
transformation: one `"{id} - {title}"` line per entry, each followed by a
newline (`writeln!`), previous content truncated. -/
def save_playlist : List SongEntry → List Char
  | [] => []
  | song :: rest => song.id.data ++ (" - ").data ++ song.title.data ++ '\n' :: save_playlist rest

/-- Mirror of `read_playlist` in `src/utils.rs` as a pure content
transformation: for each line, split at the first `" - "`; lines without it
are skipped; the part before becomes the id, the part after is trimmed and
becomes the title. -/
def read_playlist (content : List Char) : List SongEntry :=
  (splitLines content).filterMap fun line =>
    match splitFirst (" - ").data line with
    | some (i, t) => some { id := String.mk i, title := String.mk (trimChars t) }
    | none => none

/-- Projection: the selection cursor of a transition result. -/
def selection_of (o : Option (AppState × List Command)) : Option Nat :=
  o.map fun p => p.1.selected_index

/-- Projection: the page index of a transition result. -/
def page_of (o : Option (AppState × List Command)) : Option Nat :=
  o.map fun p => p.1.current_page

/-!  Helper lemmas about `create_index_queue`. -/

/-- Once the sequential (`shuffle = false`) loop of `create_index_queue`
has pushed `0`, every later candidate equals the last pushed element, is
rejected by the `contains` check, and the accumulator stays `[0]` forever:
the loop never reaches length 2. -/
lemma ciqLoop_seq_stuck (stream : Nat → Nat) (fuel : Nat) :
    ∀ k : Nat, ciqLoop 2 false stream fuel k [0] = none := by
  induction fuel with
  | zero => intro k; rfl
  | succ n ih =>
    intro k
    have h : ciqLoop 2 false stream (n + 1) k [0] = ciqLoop 2 false stream n (k + 1) [0] := rfl
    rw [h]
    exact ih (k + 1)

/-- `create_index_queue(2, false)` diverges: `none` for every iteration
budget. -/
lemma create_index_queue_two_seq (stream : Nat → Nat) (fuel : Nat) :
    create_index_queue 2 false stream fuel = none := by
  cases fuel with
  | zero => rfl
  | succ n =>
    have h : create_index_queue 2 false stream (n + 1) = ciqLoop 2 false stream n 1 [0] := rfl
    rw [h]
    exact ciqLoop_seq_stuck stream n 1

/-- Invariant of the shuffling loop: starting from a duplicate-free
accumulator of in-range indices, any successful run ends with a
duplicate-free list of in-range indices of length exactly `len`. -/
lemma ciqLoop_sound (len : Nat) (stream : Nat → Nat) (fuel : Nat) :
    ∀ (k : Nat) (ret out : List Nat),
      ret.Nodup → (∀ x ∈ ret, x < len) → ret.length ≤ len →
      ciqLoop len true stream fuel k ret = some out →
      out.Nodup ∧ (∀ x ∈ out, x < len) ∧ out.length = len := by
  induction fuel with
  | zero =>
    intro k ret out hnd hb hle h
    by_cases hlt : ret.length < len
    · simp only [ciqLoop, if_pos hlt] at h
      exact Option.noConfusion h
    · simp only [ciqLoop, if_neg hlt] at h
      cases h
      exact ⟨hnd, hb, Nat.le_antisymm hle (Nat.le_of_not_lt hlt)⟩
  | succ n ih =>
    intro k ret out hnd hb hle h
    by_cases hlt : ret.length < len
    · simp only [ciqLoop, if_pos hlt, if_true] at h
      have hlen0 : 0 < len := Nat.lt_of_le_of_lt (Nat.zero_le _) hlt
      by_cases hmem : stream k % len ∈ ret
      · rw [if_pos hmem] at h
        exact ih (k + 1) ret out hnd hb hle h
      · rw [if_neg hmem] at h
        refine ih (k + 1) (ret ++ [stream k % len]) out ?_ ?_ ?_ h
        · refine hnd.append (List.nodup_singleton _) ?_
          intro x hx hx'
          simp only [List.mem_singleton] at hx'
          subst hx'
          exact hmem hx
        · intro x hx
          rcases List.mem_append.mp hx with hx | hx
          · exact hb x hx
          · have hxv : x = stream k % len := by simpa using hx
            subst hxv
            exact Nat.mod_lt _ hlen0
        · rw [List.length_append, List.length_singleton]
          omega
    · simp only [ciqLoop, if_neg hlt] at h
      cases h
      exact ⟨hnd, hb, Nat.le_antisymm hle (Nat.le_of_not_lt hlt)⟩

/-- With the draw stream `0, 1, 2, …`, each draw is fresh, so the shuffle
loop finishes in exactly `len` iterations with the identity permutation:
an explicit draw sequence witnessing termination for every length. -/
lemma ciqLoop_id_run (len : Nat) :
    ∀ d j : Nat, j + d = len →
      ciqLoop len true (fun k => k) d j (List.range j) = some (List.range len) := by
  intro d
  induction d with
  | zero =>
    intro j hj
    have hjl : j = len := by omega
    subst hjl
    simp only [ciqLoop]
    rw [if_neg (by simp)]
  | succ n ih =>
    intro j hj
    have hjlt : j < len := by omega
    simp only [ciqLoop]
    rw [if_pos (by simpa using hjlt)]
    have hmod : j % len = j := Nat.mod_eq_of_lt hjlt
    simp only [if_true, hmod]
    rw [if_neg (by simp), ← List.range_succ]
    exact ih (j + 1) (by omega)

/-!  Claim theorems. -/

/-- C1: the spec states that `create_index_queue(n, false)` terminates and
returns the identity sequence `[0, 1, …, n-1]` for every `n ≥ 0`.  The code
does so only for `n ≤ 1`: for `n = 2` (any playlist of two or more songs,
e.g. at startup) the sequential branch proposes `val = *ret.last()`, which
is always already contained once `0` has been pushed, so the loop never
terminates — `none` for every iteration budget.  The second and third
conjuncts show the `n = 0` and `n = 1` cases do return the identity. -/
theorem c1_code_bug (stream : Nat → Nat) (fuel : Nat) :
    create_index_queue 2 false stream fuel = none ∧
    create_index_queue 0 false stream fuel = some [] ∧
    create_index_queue 1 false stream (fuel + 1) = some [0] := by
  refine ⟨create_index_queue_two_seq stream fuel, ?_, ?_⟩
  · cases fuel <;> rfl
  · show ciqLoop 1 false stream fuel 1 [0] = some [0]
    cases fuel <;> rfl

/-- C2: the spec states that `play_next_song` never panics, increments the
cursor up to the last queue position, then rebuilds and resets, and is a
harmless no-op on an empty queue.  The code violates this twice.  First
conjunct: in the spec's own two-song sequential scenario (`stateAB`, queue
`[0, 1]`, cursor on the last position), **Next** calls
`create_index_queue(2, false)`, which never terminates, for every draw
stream and iteration budget.  Second conjunct: on an empty play queue the
wrapped bound `play_queue.len() - 1 = 2^64 - 1` lets the cursor increment
to 1, and `play_queue[1]` panics (out of bounds) — not a no-op.  Third
conjunct: the before-the-last increment step itself works as specified. -/
theorem c2_code_bug :
    (∀ (stream : Nat → Nat) (fuel : Nat),
      updateApp stream fuel stateAB Message.NextSong = none) ∧
    (∀ (stream : Nat → Nat) (fuel : Nat),
      updateApp stream fuel stateEmpty Message.NextSong = none) ∧
    (∀ (stream : Nat → Nat) (fuel : Nat),
      updateApp stream fuel { stateAB with queue_index := 0 } Message.NextSong =
        some ({ stateAB with queue_index := 1, selected_index := 1, playing_index := 1 },
              [Command.Play songB.id])) := by
  refine ⟨?_, ?_, ?_⟩
  · intro stream fuel
    show play_next_song stream fuel stateAB = none
    have h : (if stateAB.queue_index < usizeSub1 stateAB.play_queue.length then
        some { stateAB with queue_index := stateAB.queue_index + 1 }
      else
        match create_index_queue stateAB.current_playlist.length stateAB.is_shuffle stream fuel with
        | some q => some { stateAB with play_queue := q, queue_index := 0 }
        | none => none) = none := by
      rw [if_neg (by decide)]
      rw [show create_index_queue stateAB.current_playlist.length stateAB.is_shuffle stream fuel =
            none from create_index_queue_two_seq stream fuel]
    rw [play_next_song, h]
  · intro stream fuel
    rfl
  · intro stream fuel
    rfl

/-- C3: the spec states that removing the selected item from an empty list,
playing the selected item from an empty playlist, and paging past bounds
are all defensive no-ops that never crash.  On the empty startup state,
`RemoveSong` executes `Vec::remove(0)` on an empty vector and
`PlaySelected` indexes `current_playlist[0]` — both panics (`none`), not
no-ops. -/
theorem c3_counterexample :
    updateApp streamZero 9 stateEmpty Message.RemoveSong = none ∧
    updateApp streamZero 9 stateEmpty Message.PlaySelected = none :=
  ⟨rfl, rfl⟩

/-- C3 amended: paging past bounds indeed never panics (given a positive
page size; the selection cursor is still reset to 0 by both paging
messages), but removing the selected item and playing the selected item
panic on an empty playlist instead of leaving the state unchanged. -/
theorem c3_amended (stream : Nat → Nat) (fuel : Nat) (s : AppState)
    (hp : 1 ≤ s.page_display_size) (he : s.current_playlist = []) :
    (updateApp stream fuel s Message.NextPage).isSome = true ∧
    (updateApp stream fuel s Message.PrevPage).isSome = true ∧
    updateApp stream fuel s Message.RemoveSong = none ∧
    updateApp stream fuel s Message.PlaySelected = none := by
  refine ⟨?_, ?_, ?_, ?_⟩
  · have h0 : s.page_display_size ≠ 0 := by omega
    simp [updateApp, h0]
  · simp [updateApp]
  · simp [updateApp, he]
  · simp [updateApp, play_selected_song, he]

/-- C3 amended, witnessed at the empty startup state. -/
theorem c3_amended_witness :
    (updateApp streamZero 9 stateEmpty Message.NextPage).isSome = true ∧
    (updateApp streamZero 9 stateEmpty Message.PrevPage).isSome = true ∧
    updateApp streamZero 9 stateEmpty Message.RemoveSong = none ∧
    updateApp streamZero 9 stateEmpty Message.PlaySelected = none :=
  c3_amended streamZero 9 stateEmpty (by decide) rfl

/-- C4: the spec states that the selection cursor is always strictly less
than `min(page_size, items_on_current_page)`.  False: from the startup
state of a one-song playlist (page size 5, one item on the page, cursor 0),
`NextItem` — which bounds the cursor only by `page_display_size - 1` —
moves the cursor to 1, which is not `< min 5 1`. -/
theorem c4_counterexample :
    updateApp streamZero 9 stateOne Message.NextItem =
      some ({ stateOne with selected_index := 1 }, []) ∧
    items_on_current_page { stateOne with selected_index := 1 } = 1 ∧
    ¬ (({ stateOne with selected_index := 1 } : AppState).selected_index <
        min ({ stateOne with selected_index := 1 } : AppState).page_display_size
          (items_on_current_page { stateOne with selected_index := 1 })) :=
  ⟨rfl, rfl, by decide⟩

/-- C4 amended: the selection cursor is bounded by the page size alone —
`NextItem` keeps it `< page_display_size` (for a positive page size), with
no regard for how many items the current page actually holds — and it is
reset to 0 on every mode switch (`GoToSearch`, `GoToSearchBrowse`,
`GoToPlaylist`), page change (`NextPage`, `PrevPage`), and search-result
replacement (`DisplaySearchResult`). -/
theorem c4_amended (stream : Nat → Nat) (fuel : Nat) (s : AppState) (r : List SongEntry)
    (h1 : 1 ≤ s.page_display_size) (h2 : s.selected_index < s.page_display_size) :
    (∃ v, selection_of (updateApp stream fuel s Message.NextItem) = some v ∧
          v < s.page_display_size) ∧
    selection_of (updateApp stream fuel s Message.GoToSearch) = some 0 ∧
    selection_of (updateApp stream fuel s Message.GoToSearchBrowse) = some 0 ∧
    selection_of (updateApp stream fuel s Message.GoToPlaylist) = some 0 ∧
    selection_of (updateApp stream fuel s Message.NextPage) = some 0 ∧
    selection_of (updateApp stream fuel s Message.PrevPage) = some 0 ∧
    selection_of (updateApp stream fuel s (Message.DisplaySearchResult r)) = some 0 := by
  refine ⟨?_, rfl, rfl, rfl, ?_, rfl, rfl⟩
  · by_cases hlt : s.selected_index < usizeSub1 s.page_display_size
    · refine ⟨s.selected_index + 1, by simp [selection_of, updateApp, hlt], ?_⟩
      have hu : usizeSub1 s.page_display_size = s.page_display_size - 1 := by
        unfold usizeSub1
        rw [if_neg (by omega)]
      rw [hu] at hlt
      omega
    · exact ⟨s.selected_index, by simp [selection_of, updateApp, hlt], h2⟩
  · have h0 : s.page_display_size ≠ 0 := by omega
    simp [selection_of, updateApp, h0]

/-- C4 amended, witnessed at the one-song startup state. -/
theorem c4_amended_witness :
    selection_of (updateApp streamZero 9 stateOne Message.GoToSearch) = some 0 :=
  (c4_amended streamZero 9 stateOne [] (by decide) (by decide)).2.1

/-- C5: the spec states that the page index is always strictly less than
`total_pages` of the displayed list, with `NextPage` clamped, including
when the list is empty.  False on an empty list: `total_pages = 0`, so even
page 0 violates the bound, and `NextPage` on the empty startup state
increments the page to 1 — the clamp `current_page < total_pages - 1`
underflows to `2^64 - 1` — instead of clamping. -/
theorem c5_counterexample :
    updateApp streamZero 9 stateEmpty Message.NextPage =
      some ({ stateEmpty with current_page := 1 }, []) ∧
    get_total_pages (displayed_list stateEmpty).length stateEmpty.page_display_size = 0 ∧
    ¬ (({ stateEmpty with current_page := 1 } : AppState).current_page <
        get_total_pages (displayed_list stateEmpty).length stateEmpty.page_display_size) :=
  ⟨rfl, rfl, by decide⟩

/-- C5 amended: whenever the page index is in range (`current_page <
total_pages`, which forces the displayed list to be non-empty) and the page
size is positive, `NextPage` and `PrevPage` keep it in range — clamped to
`[0, total_pages - 1]`; the clamp fails only in the empty-list case of the
counterexample, where `total_pages = 0` makes the invariant itself
unsatisfiable. -/
theorem c5_amended (stream : Nat → Nat) (fuel : Nat) (s : AppState)
    (h1 : 1 ≤ s.page_display_size)
    (h2 : s.current_page < get_total_pages (displayed_list s).length s.page_display_size) :
    (∃ p, page_of (updateApp stream fuel s Message.NextPage) = some p ∧
          p < get_total_pages (displayed_list s).length s.page_display_size) ∧
    (∃ q, page_of (updateApp stream fuel s Message.PrevPage) = some q ∧
          q < get_total_pages (displayed_list s).length s.page_display_size) := by
  have h0 : s.page_display_size ≠ 0 := by omega
  constructor
  · by_cases hlt : s.current_page <
        usizeSub1 (get_total_pages (displayed_list s).length s.page_display_size)
    · refine ⟨s.current_page + 1, by simp [page_of, updateApp, h0, hlt], ?_⟩
      have hu : usizeSub1 (get_total_pages (displayed_list s).length s.page_display_size) =
          get_total_pages (displayed_list s).length s.page_display_size - 1 := by
        unfold usizeSub1
        rw [if_neg (by omega)]
      rw [hu] at hlt
      omega
    · exact ⟨s.current_page, by simp [page_of, updateApp, h0, hlt], h2⟩
  · by_cases hpos : 0 < s.current_page
    · refine ⟨s.current_page - 1, by simp [page_of, updateApp, hpos], by omega⟩
    · exact ⟨s.current_page, by simp [page_of, updateApp, hpos], h2⟩

/-- C5 amended, witnessed at the one-song startup state (1 page, page 0). -/
theorem c5_amended_witness :
    ∃ p, page_of (updateApp streamZero 9 stateOne Message.NextPage) = some p ∧
      p < get_total_pages (displayed_list stateOne).length stateOne.page_display_size :=
  (c5_amended streamZero 9 stateOne (by decide) (by decide)).1

/-- C6: whenever `create_index_queue(len, true)` terminates — under any
random draw sequence and iteration budget — its result is a permutation of
`[0..len)`: length `len`, no duplicate anywhere, and containing every index
below `len`.  The final conjunct exhibits, for the same `len`, an explicit
draw sequence (the fresh draws `0, 1, 2, …`) and budget (`len` iterations)
under which the rejection-sampling loop terminates. -/
theorem c6_confirmed (len fuel : Nat) (stream : Nat → Nat) (ret : List Nat)
    (h : create_index_queue len true stream fuel = some ret) :
    ret.length = len ∧ ret.Nodup ∧ (∀ i, i < len → i ∈ ret) ∧
    create_index_queue len true (fun k => k) len = some (List.range len) := by
  obtain ⟨hnd, hb, hlen⟩ :=
    ciqLoop_sound len stream fuel 0 [] ret List.nodup_nil (by simp) (by simp) h
  refine ⟨hlen, hnd, ?_, ?_⟩
  · have hsub : ret ⊆ List.range len := fun x hx => List.mem_range.mpr (hb x hx)
    have hperm : ret.Perm (List.range len) :=
      (List.subperm_of_subset hnd hsub).perm_of_length_le (by simp [hlen])
    intro i hi
    exact hperm.mem_iff.mpr (List.mem_range.mpr hi)
  · have h0 : List.range 0 = ([] : List Nat) := List.range_zero
    have := ciqLoop_id_run len len 0 (by omega)
    rw [h0] at this
    exact this

/-- C6, witnessed at `len = 3` with the draw sequence `0, 1, 2`. -/
theorem c6_witness : ([0, 1, 2] : List Nat).length = 3 ∧ ([0, 1, 2] : List Nat).Nodup :=
  ⟨(c6_confirmed 3 3 (fun k => k) [0, 1, 2] (by decide)).1,
   (c6_confirmed 3 3 (fun k => k) [0, 1, 2] (by decide)).2.1⟩

/-- C7: from every state, in every mode, `DisplaySearchResult r` stores `r`
wholesale as the search results (never merged with the old ones), forces
the mode to `SearchBrowse`, and clears the loading flag (and issues no
command). -/
theorem c7_confirmed (stream : Nat → Nat) (fuel : Nat) (s : AppState) (r : List SongEntry) :
    ∃ s', updateApp stream fuel s (Message.DisplaySearchResult r) = some (s', []) ∧
      s'.search_results = r ∧ s'.mode = AppMode.SearchBrowse ∧ s'.loading = false :=
  ⟨_, rfl, rfl, rfl, rfl⟩

/-- C8: in `SearchInput` mode the Enter key maps to `SearchSong`, and
`SearchSong` issues `Search(keyword)` and sets the loading flag exactly
when the trimmed keyword is non-empty; with a whitespace-only keyword the
state (including the loading flag) is returned unchanged and no command is
issued. -/
theorem c8_confirmed (stream : Nat → Nat) (fuel : Nat) (s : AppState) :
    appInput AppMode.SearchInput (AppInput.Character ENTER_KEY) = Message.SearchSong ∧
    updateApp stream fuel s Message.SearchSong =
      some (if 0 < s.keyword.trim.length
            then ({ s with loading := true }, [Command.Search s.keyword])
            else (s, [])) := by
  refine ⟨by decide, ?_⟩
  by_cases h : 0 < s.keyword.trim.length
  · simp [updateApp, h]
  · simp [updateApp, h]

/-- C9: persistence round-trip — saving the playlist
`[{id:"x",title:"T1"}, {id:"y",title:"T2"}]` and loading it back
reproduces the same two entries in the same order, and empty content loads
to the empty playlist. -/
theorem c9_confirmed :
    read_playlist (save_playlist
        [{ id := "x", title := "T1" }, { id := "y", title := "T2" }]) =
      [{ id := "x", title := "T1" }, { id := "y", title := "T2" }] ∧
    read_playlist [] = [] := by
  constructor
  · decide
  · decide

/-- C10: `play_selected_song` records `playing_index = selected_index`
(the in-page cursor) while the `Play` command names the playlist entry at
the absolute position `selected_index + current_page * page_display_size`;
with a positive page size the two positions coincide exactly when
`current_page = 0`. -/
theorem c10_confirmed (stream : Nat → Nat) (fuel : Nat) (s : AppState) (song : SongEntry)
    (h1 : 1 ≤ s.page_display_size)
    (h2 : s.current_playlist[s.selected_index + s.current_page * s.page_display_size]? =
      some song) :
    updateApp stream fuel s Message.PlaySelected =
      some ({ s with playing_index := s.selected_index }, [Command.Play song.id]) ∧
    (({ s with playing_index := s.selected_index } : AppState).playing_index =
        s.selected_index + s.current_page * s.page_display_size ↔ s.current_page = 0) := by
  constructor
  · simp [updateApp, play_selected_song, h2]
  · show s.selected_index = s.selected_index + s.current_page * s.page_display_size ↔
      s.current_page = 0
    constructor
    · intro h
      have h3 : s.current_page * s.page_display_size = 0 := by omega
      rcases Nat.mul_eq_zero.mp h3 with h' | h'
      · exact h'
      · omega
    · intro h
      rw [h]
      simp

/-- C10, witnessed on page 1 with page size 1 over a two-song playlist:
the command plays `songB` (absolute index 1) while `playing_index` is
recorded as 0. -/
theorem c10_witness :
    updateApp streamZero 9 statePaged Message.PlaySelected =
      some ({ statePaged with playing_index := 0 }, [Command.Play songB.id]) ∧
    (({ statePaged with playing_index := 0 } : AppState).playing_index =
        statePaged.selected_index +
          statePaged.current_page * statePaged.page_display_size ↔
      statePaged.current_page = 0) :=
  c10_confirmed streamZero 9 statePaged songB (by decide) (by decide)
